import Mathlib

/-!
Shallow embedding of `sps30_tray_logger_win.py` (bitpanic/Partical_Counter).

Modelling conventions:
* Wall-clock instants (`datetime.now()`, `time.time()`) are integers counting
  seconds; `timedelta` values are integer numbers of seconds.
* Python floats are modelled by `Val`: a rational number or NaN.  The only
  float behaviour the program relies on is `v == v` being false exactly for
  NaN, `float(x)` raising on non-numeric input, and ordinary comparison.
* The mutable fields of `SPS30Reader` become a `State` record; one iteration
  of the `_run` while-loop body becomes the pure function `tick`, taking an
  environment (`TickEnv`) that supplies the wall clock and the outcomes of
  the driver calls (whether `_connect` finds a working port, whether
  `start_measurement` succeeds, and the raw value returned by the driver
  read).  Side effects of an iteration (sleeps, connect/disconnect calls,
  the sample callback) are reported as a list of `Action`s.
-/

/-- IEEE-float-like scalar: either a rational number or NaN. -/
inductive Val where
  | nan : Val
  | num (q : ℚ) : Val
deriving DecidableEq, Repr

/-- Python `v == v` on a float: false exactly for NaN (used by `_avg` and
`Dashboard._format_stats`). -/
def Val.eqSelf : Val → Bool
  | .nan => false
  | .num _ => true

/-- Python `a > b` on floats: any comparison involving NaN is false. -/
def Val.pyGt : Val → Val → Bool
  | .num x, .num y => y < x
  | _, _ => false

/-- Rational content of a `Val` (only applied to non-NaN values). -/
def Val.q : Val → ℚ
  | .nan => 0
  | .num x => x

/-- The namedtuple `Sample = namedtuple('Sample', ['ts','pm1','pm25','pm4','pm10'])`. -/
structure Sample where
  ts : Int
  pm1 : Val
  pm25 : Val
  pm4 : Val
  pm10 : Val
deriving DecidableEq, Repr

/-- Seconds in `timedelta(days=7)`, the retention horizon of `DataStore.add`. -/
def sevenDays : Int := 7 * 24 * 60 * 60

namespace DataStore

/-- The trim loop of `DataStore.add`:
`while self.samples and self.samples[0].ts < cutoff: self.samples.popleft()`.
The deque is modelled head-first (head = oldest). -/
def trimOld (cutoff : Int) : List Sample → List Sample
  | [] => []
  | s :: rest => if s.ts < cutoff then trimOld cutoff rest else s :: rest

/-- Method `DataStore.add(sample)`, with the wall clock (`datetime.now()`)
passed explicitly: append, then trim entries older than 7 days. -/
def add (samples : List Sample) (sample : Sample) (now : Int) : List Sample :=
  trimOld (now - sevenDays) (samples ++ [sample])

/-- Method `DataStore.get_window(window_td)`: all samples when the window is
`None`, else those with `s.ts >= now - window_td`, as a fresh list. -/
def get_window (samples : List Sample) (window_td : Option Int) (now : Int) :
    List Sample :=
  match window_td with
  | none => samples
  | some d => samples.filter (fun s => decide (now - d ≤ s.ts))

/-- Folding a whole sequence of `add` calls (each paired with the wall-clock
instant at which it runs) over an initial store. -/
def addAll (samples : List Sample) (adds : List (Sample × Int)) : List Sample :=
  adds.foldl (fun st p => add st p.1 p.2) samples

end DataStore

namespace DataStore

theorem trimOld_suffix (cutoff : Int) (l : List Sample) :
    (trimOld cutoff l).IsSuffix l := by
  induction l with
  | nil => exact List.nil_suffix
  | cons s rest ih =>
    by_cases h : s.ts < cutoff
    · simpa [trimOld, h] using ih.trans (List.suffix_cons s rest)
    · simp [trimOld, h]

theorem trimOld_sorted (cutoff : Int) (l : List Sample)
    (hl : l.Pairwise (fun a b => a.ts ≤ b.ts)) :
    (trimOld cutoff l).Pairwise (fun a b => a.ts ≤ b.ts) :=
  hl.sublist (trimOld_suffix cutoff l).sublist

theorem trimOld_ge (cutoff : Int) (l : List Sample) :
    l.Pairwise (fun a b => a.ts ≤ b.ts) →
      ∀ s ∈ trimOld cutoff l, cutoff ≤ s.ts := by
  induction l with
  | nil => intro _ s hs; simp [trimOld] at hs
  | cons a rest ih =>
    intro hl s hs
    by_cases h : a.ts < cutoff
    · exact ih (List.pairwise_cons.mp hl).2 s (by simpa [trimOld, h] using hs)
    · rw [trimOld] at hs
      simp only [if_neg h] at hs
      rcases List.mem_cons.mp hs with rfl | hmem
      · omega
      · exact le_trans (by omega) ((List.pairwise_cons.mp hl).1 s hmem)

theorem trimOld_mem (cutoff : Int) (l : List Sample) :
    ∀ s ∈ trimOld cutoff l, s ∈ l :=
  fun _ hs => (trimOld_suffix cutoff l).sublist.mem hs

/-- Core invariant of repeated `add` calls: if the starting store is sorted,
every starting element is no newer than every added sample, and the added
samples arrive in timestamp order, then the store stays sorted, and its
members all come from the starting store or the added samples. -/
theorem addAll_sorted_mem (adds : List (Sample × Int)) (store : List Sample)
    (hs : store.Pairwise (fun a b => a.ts ≤ b.ts))
    (hcross : ∀ x ∈ store, ∀ p ∈ adds, x.ts ≤ p.1.ts)
    (hmono : adds.Pairwise (fun p q => p.1.ts ≤ q.1.ts)) :
    (addAll store adds).Pairwise (fun a b => a.ts ≤ b.ts) ∧
      ∀ x ∈ addAll store adds, x ∈ store ∨ ∃ p ∈ adds, x = p.1 := by
  induction adds generalizing store with
  | nil =>
    refine ⟨hs, ?_⟩
    intro x hx
    exact Or.inl hx
  | cons p rest ih =>
    have hstep : addAll store (p :: rest) = addAll (add store p.1 p.2) rest := rfl
    have happ : (store ++ [p.1]).Pairwise (fun a b => a.ts ≤ b.ts) := by
      refine List.pairwise_append.mpr ⟨hs, List.pairwise_singleton _ _, ?_⟩
      intro x hx y hy
      rcases List.mem_singleton.mp hy with rfl
      exact hcross x hx p (List.mem_cons_self p rest)
    have hs' : (add store p.1 p.2).Pairwise (fun a b => a.ts ≤ b.ts) :=
      trimOld_sorted _ _ happ
    have hmem' : ∀ x ∈ add store p.1 p.2, x ∈ store ∨ x = p.1 := by
      intro x hx
      have := trimOld_mem _ _ x hx
      rcases List.mem_append.mp this with hx' | hx'
      · exact Or.inl hx'
      · exact Or.inr (List.mem_singleton.mp hx')
    have hcross' : ∀ x ∈ add store p.1 p.2, ∀ q ∈ rest, x.ts ≤ q.1.ts := by
      intro x hx q hq
      rcases hmem' x hx with hx' | rfl
      · exact hcross x hx' q (List.mem_cons_of_mem p hq)
      · exact (List.pairwise_cons.mp hmono).1 q hq
    have := ih (add store p.1 p.2) hs' hcross' (List.pairwise_cons.mp hmono).2
    rw [hstep]
    refine ⟨this.1, ?_⟩
    intro x hx
    rcases this.2 x hx with hx' | hx'
    · rcases hmem' x hx' with hx'' | rfl
      · exact Or.inl hx''
      · exact Or.inr ⟨p, List.mem_cons_self p rest, rfl⟩
    · rcases hx' with ⟨q, hq, rfl⟩
      exact Or.inr ⟨q, List.mem_cons_of_mem p hq, rfl⟩

end DataStore

/-- Concrete sequence of `add` calls used as a witness input: two samples in
timestamp order, added at instants 1000 and 2000. -/
def c1adds : List (Sample × Int) :=
  [(⟨990, .num 1, .num 2, .num 3, .num 4⟩, 1000),
   (⟨1990, .num 5, .nan, .num 7, .num 8⟩, 2000)]

/-- C1: for every sequence of `add()` calls whose samples arrive in timestamp
order (insertion order is monotonic in time), a subsequent `get_window(None)`
returns a sequence sorted by timestamp ascending in which no sample is older
than 7 days relative to the wall-clock time of the last `add()`; moreover the
trim of `add` removes elements only from the oldest end of the buffer (the
result is always a suffix of the buffer with the new sample appended). -/
theorem c1_add_sorted_retention_trim (adds : List (Sample × Int))
    (hne : adds ≠ [])
    (hmono : adds.Pairwise (fun p q => p.1.ts ≤ q.1.ts)) :
    (∀ now, (DataStore.get_window (DataStore.addAll [] adds) none now).Pairwise
        (fun a b => a.ts ≤ b.ts)) ∧
    (∀ now, ∀ s ∈ DataStore.get_window (DataStore.addAll [] adds) none now,
        (adds.getLast hne).2 - sevenDays ≤ s.ts) ∧
    (∀ (store : List Sample) (sample : Sample) (t : Int),
        (DataStore.add store sample t).IsSuffix (store ++ [sample])) := by
  have hsorted :
      ∀ (l : List (Sample × Int)), l.Pairwise (fun p q => p.1.ts ≤ q.1.ts) →
        (DataStore.addAll [] l).Pairwise (fun a b => a.ts ≤ b.ts) := by
    intro l hl
    exact (DataStore.addAll_sorted_mem l [] (List.Pairwise.nil)
      (by intro x hx; simp at hx) hl).1
  refine ⟨fun _ => hsorted adds hmono, ?_, fun store sample t =>
    DataStore.trimOld_suffix _ _⟩
  intro now s hsmem
  rcases List.eq_nil_or_concat adds with rfl | ⟨L, p, hcat⟩
  · exact absurd rfl hne
  · have hcat' : adds = L ++ [p] := by simpa [List.concat_eq_append] using hcat
    subst hcat'
    have hlast : ((L ++ [p]).getLast hne) = p := by
      simp [List.getLast_append]
    rw [hlast]
    have hfold : DataStore.addAll [] (L ++ [p]) =
        DataStore.add (DataStore.addAll [] L) p.1 p.2 := by
      simp [DataStore.addAll, List.foldl_append]
    have hcross := (List.pairwise_append.mp hmono).2.2
    have hmidsorted := hsorted L (List.pairwise_append.mp hmono).1
    have hmidmem := (DataStore.addAll_sorted_mem L [] (List.Pairwise.nil)
      (by intro x hx; simp at hx) (List.pairwise_append.mp hmono).1).2
    have happ : ((DataStore.addAll [] L) ++ [p.1]).Pairwise
        (fun a b => a.ts ≤ b.ts) := by
      refine List.pairwise_append.mpr ⟨hmidsorted, List.pairwise_singleton _ _, ?_⟩
      intro x hx y hy
      rcases List.mem_singleton.mp hy with rfl
      rcases hmidmem x hx with hx' | ⟨q, hq, rfl⟩
      · simp at hx'
      · exact hcross q hq p (List.mem_singleton_self p)
    have : s ∈ DataStore.add (DataStore.addAll [] L) p.1 p.2 := by
      rw [← hfold]
      simpa [DataStore.get_window] using hsmem
    exact DataStore.trimOld_ge _ _ happ s this

/-- Witness for C1 at the concrete input `c1adds`. -/
theorem c1_add_sorted_retention_trim_witness :
    c1adds ≠ [] ∧ c1adds.Pairwise (fun p q => p.1.ts ≤ q.1.ts) ∧
    (∀ now, ∀ s ∈ DataStore.get_window (DataStore.addAll [] c1adds) none now,
        (c1adds.getLast (by decide)).2 - sevenDays ≤ s.ts) :=
  ⟨by decide, by decide,
    (c1_add_sorted_retention_trim c1adds (by decide) (by decide)).2.1⟩

/-- C8: `get_window(d)` is exactly the filtering of `get_window(None)` to
timestamps at least `now - d`, and a narrower window is a subset of a wider
window taken at the same instant. -/
theorem c8_get_window_filter_subset (samples : List Sample) (d d' now : Int)
    (h : d ≤ d') :
    DataStore.get_window samples (some d) now =
      (DataStore.get_window samples none now).filter
        (fun s => decide (now - d ≤ s.ts)) ∧
    ∀ s ∈ DataStore.get_window samples (some d) now,
      s ∈ DataStore.get_window samples (some d') now := by
  refine ⟨rfl, ?_⟩
  intro s hs
  rw [DataStore.get_window, List.mem_filter] at hs ⊢
  refine ⟨hs.1, ?_⟩
  have := of_decide_eq_true hs.2
  exact decide_eq_true (by omega)

/-- Witness for C8 at a concrete store, window pair 10 ≤ 20 and instant 100. -/
theorem c8_get_window_filter_subset_witness :
    (10 : Int) ≤ 20 ∧
    ∀ s ∈ DataStore.get_window [(⟨95, .num 1, .num 1, .num 1, .num 1⟩ : Sample)]
        (some 10) 100,
      s ∈ DataStore.get_window [(⟨95, .num 1, .num 1, .num 1, .num 1⟩ : Sample)]
        (some 20) 100 :=
  ⟨by decide,
    (c8_get_window_filter_subset
      [(⟨95, .num 1, .num 1, .num 1, .num 1⟩ : Sample)] 10 20 100 (by decide)).2⟩

/-- Abstract Python value returned by a legacy driver read
(`read_measured_values()` / `read_measured_value()`), as dispatched on by the
extraction code of `SPS30Reader._read_measurement`:
* `num q`   — a value on which `float(x)` succeeds, yielding `q`;
* `junk`    — any value on which `float(x)` raises (non-numeric string, None…);
* `pyList`  — a `list`/`tuple`;
* `obj`     — an object carrying the optional attributes `pm1p0`, `pm2p5`,
  `pm4p0`, `pm10p0` (`none` = attribute absent, so `getattr` default applies);
* `dict`    — a mapping with the same optional keys (`none` = key absent, so
  `.get` default applies). -/
inductive PyVal where
  | num (q : ℚ) : PyVal
  | junk : PyVal
  | pyList (xs : List PyVal) : PyVal
  | obj (pm1p0 pm2p5 pm4p0 pm10p0 : Option PyVal) : PyVal
  | dict (pm1p0 pm2p5 pm4p0 pm10p0 : Option PyVal) : PyVal

/-- Python `isinstance(x, (list, tuple))`. -/
def PyVal.isList : PyVal → Bool
  | .pyList _ => true
  | _ => false

/-- The helper `_to_float(x)` inside `_read_measurement`:
`try: return float(x) except: return float('nan')`. -/
def PyVal.to_float : PyVal → Val
  | .num q => .num q
  | _ => .nan

/-- Attribute/key lookup with a `float('nan')` default
(`getattr(m, 'pm1p0', float('nan'))` / `m.get('pm1p0', float('nan'))`)
followed by `_to_float`. -/
def PyVal.fieldToFloat : Option PyVal → Val
  | some v => v.to_float
  | none => .nan

namespace SPS30Reader

/-- The PM-extraction chain of `SPS30Reader._read_measurement` (legacy path):
starting from `pm1 = pm25 = pm4 = pm10 = nan`, try in order the
object-with-attributes shape, the dict shape, the flat ≥4-element
list/tuple shape (excluding a 3-element value with a nested head, a condition
kept verbatim from the source even though it is vacuous when the length is at
least 4), and the nested shape whose first element is a ≥4-element
list/tuple; unmatched shapes leave all four fields NaN.  The final `elif`
(SHDLC variant `((mc1, mc2.5, mc4, mc10), (nc…), typical_size)`) is split out
as `extract_pm_nested`. -/
def extract_pm_nested (xs : List PyVal) : Val × Val × Val × Val :=
  match xs with
  | .pyList ys :: _ =>
    if 4 ≤ ys.length then
      ((ys.getD 0 .junk).to_float, (ys.getD 1 .junk).to_float,
       (ys.getD 2 .junk).to_float, (ys.getD 3 .junk).to_float)
    else (.nan, .nan, .nan, .nan)
  | _ => (.nan, .nan, .nan, .nan)

def extract_pm (m : PyVal) : Val × Val × Val × Val :=
  match m with
  | .obj pm1p0 pm2p5 pm4p0 pm10p0 =>
    if pm1p0.isSome ∨ pm2p5.isSome then
      (PyVal.fieldToFloat pm1p0, PyVal.fieldToFloat pm2p5,
       PyVal.fieldToFloat pm4p0, PyVal.fieldToFloat pm10p0)
    else (.nan, .nan, .nan, .nan)
  | .dict pm1p0 pm2p5 pm4p0 pm10p0 =>
    (PyVal.fieldToFloat pm1p0, PyVal.fieldToFloat pm2p5,
     PyVal.fieldToFloat pm4p0, PyVal.fieldToFloat pm10p0)
  | .pyList xs =>
    if 4 ≤ xs.length ∧ ¬(xs.length = 3 ∧ (xs.headD .junk).isList) then
      ((xs.getD 0 .junk).to_float, (xs.getD 1 .junk).to_float,
       (xs.getD 2 .junk).to_float, (xs.getD 3 .junk).to_float)
    else extract_pm_nested xs
  | _ => (.nan, .nan, .nan, .nan)

/-- Construction of the returned `Sample(ts=datetime.now(), pm1=…, …)` from a
legacy raw measurement. -/
def legacySample (now : Int) (m : PyVal) : Sample :=
  let v := extract_pm m
  ⟨now, v.1, v.2.1, v.2.2.1, v.2.2.2⟩

end SPS30Reader

/-- Module-level helper `_avg(values)`: drop NaNs via `v == v`, return NaN on
an empty remainder, else the rational mean of what is left. -/
def pyAvg (values : List Val) : Val :=
  let vals := values.filter Val.eqSelf
  if vals = [] then .nan
  else .num (((vals.map Val.q).sum) / (vals.length : ℚ))

/-- Python built-in `max` on a nonempty float list as used by
`Dashboard._format_stats`: fold left, replacing the current maximum when the
next item compares strictly greater (NaN never compares greater). The empty
case is never reached by `_format_stats`, which returns early. -/
def pyMax : List Val → Val
  | [] => .nan
  | v :: rest => rest.foldl (fun c x => if Val.pyGt x c then x else c) v

/-- C7: read-shape normalization of the legacy driver path. A flat ≥4-element
input takes the four PM fields positionally (so `[1.0,2.0,3.0,4.0]` yields
`pm1=1.0, pm25=2.0, pm4=3.0, pm10=4.0`); a 3-element input whose first element
is an inner ≥4-element sequence takes the four values positionally from that
inner sequence; a field on which `float()` fails becomes NaN while the
remaining fields are extracted unaffected. -/
theorem c7_read_shape_normalization :
    (∀ q1 q2 q3 q4 : ℚ,
      SPS30Reader.extract_pm (.pyList [.num q1, .num q2, .num q3, .num q4]) =
        (.num q1, .num q2, .num q3, .num q4)) ∧
    (∀ (x0 x1 x2 x3 : PyVal) (rest : List PyVal),
      SPS30Reader.extract_pm (.pyList (x0 :: x1 :: x2 :: x3 :: rest)) =
        (x0.to_float, x1.to_float, x2.to_float, x3.to_float)) ∧
    (∀ (y0 y1 y2 y3 : PyVal) (yrest : List PyVal) (a b : PyVal),
      SPS30Reader.extract_pm
          (.pyList [.pyList (y0 :: y1 :: y2 :: y3 :: yrest), a, b]) =
        (y0.to_float, y1.to_float, y2.to_float, y3.to_float)) ∧
    (∀ (x0 x2 x3 : PyVal) (rest : List PyVal),
      SPS30Reader.extract_pm (.pyList (x0 :: .junk :: x2 :: x3 :: rest)) =
        (x0.to_float, Val.nan, x2.to_float, x3.to_float)) := by
  have hflat : ∀ (x0 x1 x2 x3 : PyVal) (rest : List PyVal),
      SPS30Reader.extract_pm (.pyList (x0 :: x1 :: x2 :: x3 :: rest)) =
        (x0.to_float, x1.to_float, x2.to_float, x3.to_float) := by
    intro x0 x1 x2 x3 rest
    have hcond : 4 ≤ (x0 :: x1 :: x2 :: x3 :: rest).length ∧
        ¬((x0 :: x1 :: x2 :: x3 :: rest).length = 3 ∧
          ((x0 :: x1 :: x2 :: x3 :: rest).headD .junk).isList) := by
      constructor
      · simp only [List.length_cons]; omega
      · rintro ⟨h3, _⟩
        simp only [List.length_cons] at h3
        omega
    rw [SPS30Reader.extract_pm, if_pos hcond]
    simp [List.getD]
  refine ⟨?_, hflat, ?_, ?_⟩
  · intro q1 q2 q3 q4
    exact hflat (.num q1) (.num q2) (.num q3) (.num q4) []
  · intro y0 y1 y2 y3 yrest a b
    rw [SPS30Reader.extract_pm, if_neg (by simp)]
    simp [SPS30Reader.extract_pm_nested, List.getD]
  · intro x0 x2 x3 rest
    rw [hflat]
    rfl

/-- Write of a NaN into the `pm25` field of the `i`-th sample of a list (the
identity when `i` is out of range), used to state the NaN-isolation claim. -/
def setPm25Nan (l : List Sample) (i : Nat) : List Sample :=
  match l[i]? with
  | some s => l.set i { s with pm25 := Val.nan }
  | none => l

theorem set_getElem_self_list {α : Type} (l : List α) (i : Nat)
    (h : i < l.length) : l.set i l[i] = l := by
  apply List.ext_getElem?
  intro n
  rw [List.getElem?_set]
  split
  · next heq =>
    subst heq
    simp [List.getElem?_eq_getElem h]
  · rfl

theorem setPm25Nan_map (l : List Sample) (i : Nat) (f : Sample → Val)
    (hf : ∀ s : Sample, f { s with pm25 := Val.nan } = f s) :
    (setPm25Nan l i).map f = l.map f := by
  rw [setPm25Nan]
  cases hm : l[i]? with
  | none => rfl
  | some s =>
    obtain ⟨hlt, hget⟩ := List.getElem?_eq_some.mp hm
    have hlen : i < (l.map f).length := by simpa using hlt
    have hmap : (l.map f)[i] = f s := by
      rw [List.getElem_map]
      rw [hget]
    rw [List.map_set, hf s, ← hmap]
    exact set_getElem_self_list (l.map f) i hlen

/-- C9: a NaN written into the `pm25` field of any sample leaves the windowed
average and maximum of the other three fields exactly unchanged, and the
average of the NaN-carrying field itself is computed over the non-NaN values
only (`_avg` first drops every value with `v != v`). -/
theorem c9_nan_does_not_corrupt_other_fields (l : List Sample) (i : Nat) :
    pyAvg ((setPm25Nan l i).map Sample.pm1) = pyAvg (l.map Sample.pm1) ∧
    pyMax ((setPm25Nan l i).map Sample.pm1) = pyMax (l.map Sample.pm1) ∧
    pyAvg ((setPm25Nan l i).map Sample.pm4) = pyAvg (l.map Sample.pm4) ∧
    pyMax ((setPm25Nan l i).map Sample.pm4) = pyMax (l.map Sample.pm4) ∧
    pyAvg ((setPm25Nan l i).map Sample.pm10) = pyAvg (l.map Sample.pm10) ∧
    pyMax ((setPm25Nan l i).map Sample.pm10) = pyMax (l.map Sample.pm10) ∧
    pyAvg ((setPm25Nan l i).map Sample.pm25) =
      pyAvg (((setPm25Nan l i).map Sample.pm25).filter Val.eqSelf) := by
  have h1 := setPm25Nan_map l i Sample.pm1 (fun _ => rfl)
  have h4 := setPm25Nan_map l i Sample.pm4 (fun _ => rfl)
  have h10 := setPm25Nan_map l i Sample.pm10 (fun _ => rfl)
  refine ⟨by rw [h1], by rw [h1], by rw [h4], by rw [h4], by rw [h10],
    by rw [h10], ?_⟩
  rw [pyAvg, pyAvg]
  simp [List.filter_filter]

namespace SPS30Reader

/-- Mutable fields of `SPS30Reader`, as set up by `__init__`.  `device`,
`conn` and `port` record whether `_device`, `_conn` and `_port` are non-None
(the driver handles themselves are opaque); `warmup_deadline = 0` is the
falsy initial `0.0`. -/
structure State where
  uart_port : Option String
  sample_period_s : ℚ
  device : Bool
  conn : Bool
  port : Bool
  consecutive_read_failures : Nat
  max_consecutive_failures : Nat
  measurement_started : Bool
  warmup_deadline : Int
  last_sample_time : Option Int
  stop_event : Bool
  paused : Bool
  thread : Bool
deriving DecidableEq, Repr

/-- Constructor `SPS30Reader.__init__`: the sample period is clamped to at
least 0.5 s and the failure threshold is 50. -/
def init (uart_port : Option String) (sample_period_s : ℚ) : State :=
  { uart_port := uart_port
    sample_period_s := max (1 / 2) sample_period_s
    device := false
    conn := false
    port := false
    consecutive_read_failures := 0
    max_consecutive_failures := 50
    measurement_started := false
    warmup_deadline := 0
    last_sample_time := none
    stop_event := false
    paused := false
    thread := false }

/-- Method `SPS30Reader.start()`: a no-op if the loop thread already exists,
else clear the stop event and spawn the thread.  The boolean reports whether
a new thread was spawned. -/
def start (st : State) : State × Bool :=
  if st.thread then (st, false)
  else ({ st with stop_event := false, thread := true }, true)

/-- Method `SPS30Reader._disconnect()`: best-effort `stop_measurement` on the
device (errors swallowed, no state effect modelled), then drop the device,
connection and port handles. -/
def disconnect (st : State) : State :=
  { st with device := false, conn := false, port := false }

/-- Method `SPS30Reader.stop()`: set the stop event, join and drop the
thread, then `_disconnect`. -/
def stop (st : State) : State :=
  disconnect { st with stop_event := true, thread := false }

/-- Method `SPS30Reader.set_port(port_name)`: retarget the port, force a
disconnect, and clear `_last_sample_time` and `_measurement_started`. -/
def set_port (st : State) (port_name : Option String) : State :=
  let st1 := disconnect { st with uart_port := port_name }
  { st1 with last_sample_time := none, measurement_started := false }

/-- Method `SPS30Reader.is_connected()`: true only when a device handle
exists and the last successful sample is under 20 seconds old. -/
def is_connected (st : State) (now : Int) : Bool :=
  if st.device = false then false
  else
    match st.last_sample_time with
    | none => false
    | some t => decide (now - t < 20)

/-- Candidate-port computation at the top of `SPS30Reader._connect()`:
`[self.uart_port]` when a port is pinned, else the detected COM ports, else
the static range COM3..COM40. -/
def portsToTry (uart_port : Option String) (detected : List String) :
    List String :=
  match uart_port with
  | some p => [p]
  | none =>
    let d := detected.filter (fun p => p.toUpper.startsWith "COM")
    if d ≠ [] then d
    else (List.range 38).map (fun i => "COM" ++ toString (i + 3))

/-- Method `SPS30Reader._ensure_started()`: a no-op without a device or when
measurement is already started; otherwise the start command (modern first,
legacy fallback) either succeeds (`startOk`) and sets the flag, or fails with
the exception swallowed. -/
def ensure_started (st : State) (startOk : Bool) : State :=
  if st.device = false then st
  else if st.measurement_started then st
  else if startOk then { st with measurement_started := true } else st

/-- Method `SPS30Reader._connect()`, with the environment deciding whether
some candidate port opens (`connectOk`) and which driver variant is used
(`shdlcVariant`: the legacy SHDLC path keeps a `_conn`, the modern UART path
sets `_conn = None`).  On success `_ensure_started` runs and the warm-up
deadline is set 5 seconds in the future; on failure every handle is cleared
and `False` is returned. -/
def connect (st : State) (now : Int) (connectOk shdlcVariant startOk : Bool) :
    State × Bool :=
  if connectOk then
    let st1 := { st with device := true, port := true, conn := shdlcVariant }
    let st2 := ensure_started st1 startOk
    ({ st2 with warmup_deadline := now + 5 }, true)
  else ({ st with device := false, port := false, conn := false }, false)

/-- Method `SPS30Reader._read_measurement()`, at the granularity the loop
observes: `None` without a device, `None` (after a short sleep) while the
warm-up deadline is in the future, else the legacy raw value `raw` (with
`raw = none` standing for a read call that raised) normalized into a
`Sample`. -/
def read_measurement (st : State) (now : Int) (raw : Option PyVal) :
    Option Sample :=
  if st.device = false then none
  else if st.warmup_deadline ≠ 0 ∧ now < st.warmup_deadline then none
  else
    match raw with
    | none => none
    | some m => some (legacySample now m)

/-- Environment of one loop iteration: the wall clock and the outcomes of
the driver calls made during that iteration. -/
structure TickEnv where
  now : Int
  connectOk : Bool
  shdlcVariant : Bool
  startOk : Bool
  raw : Option PyVal

/-- Externally visible effects of one loop iteration. -/
inductive Action where
  | sleep (q : ℚ)
  | connectCall
  | disconnectCall
  | ensureStartedCall
  | emitSample (s : Sample)
deriving DecidableEq, Repr

/-- Lines 499-507 of `_run`: when no device is open, attempt `_connect`;
on failure sleep `min(10, backoff)` and grow the backoff by 1.5× (capped at
10), then `continue` (the returned boolean is false); on success reset the
backoff to 1.0 and the failure counter to 0 and fall through. -/
def connectPhase (st : State) (backoff_s : ℚ) (env : TickEnv) :
    State × ℚ × Bool × List Action :=
  if st.device = false then
    let r := connect st env.now env.connectOk env.shdlcVariant env.startOk
    if r.2 then
      ({ r.1 with consecutive_read_failures := 0 }, 1, true, [.connectCall])
    else
      (r.1, min 10 (backoff_s * (3 / 2)), false,
        [.connectCall, .sleep (min 10 backoff_s)])
  else (st, backoff_s, true, [])

/-- Lines 509-545 of `_run`: the paused check, the read, the failure-counter
policy (threshold 50: full disconnect, counter reset, measurement flag
cleared, 1 s pause; below threshold: defensive `_ensure_started` and a 0.5 s
retry sleep), and on success the callback, counter reset, `_last_sample_time`
update and the inter-sample sleep. -/
def tickBody (st : State) (backoff_s : ℚ) (env : TickEnv)
    (acts : List Action) : State × ℚ × List Action :=
  if st.paused then (st, backoff_s, acts ++ [.sleep (1 / 5)])
  else
    match read_measurement st env.now env.raw with
    | none =>
      let st1 :=
        { st with consecutive_read_failures := st.consecutive_read_failures + 1 }
      if st1.max_consecutive_failures ≤ st1.consecutive_read_failures then
        let st2 := disconnect st1
        let st3 := { st2 with consecutive_read_failures := 0 }
        ({ st3 with measurement_started := false },
          backoff_s, acts ++ [.disconnectCall, .sleep 1])
      else
        (ensure_started st1 env.startOk, backoff_s,
          acts ++ [.ensureStartedCall, .sleep (1 / 2)])
    | some sample =>
      let st1 := { st with consecutive_read_failures := 0 }
      ({ st1 with last_sample_time := some env.now },
        backoff_s, acts ++ [.emitSample sample, .sleep st.sample_period_s])

/-- One full iteration of the `_run` while-loop body (entered when the stop
event is not set). -/
def tick (st : State) (backoff_s : ℚ) (env : TickEnv) :
    State × ℚ × List Action :=
  let c := connectPhase st backoff_s env
  if c.2.2.1 then tickBody c.1 c.2.1 env c.2.2.2
  else (c.1, c.2.1, c.2.2.2)

/-- Iterating `tick` from a starting state and backoff, under a stream of
environments; returns the state and backoff register after `n` iterations. -/
def runTicks (st : State) (b : ℚ) (envs : Nat → TickEnv) : Nat → State × ℚ
  | 0 => (st, b)
  | n + 1 =>
    let p := runTicks st b envs n
    let r := tick p.1 p.2 (envs n)
    (r.1, r.2.1)

/-- Value of the `backoff_s` local of `_run` after `n` consecutive connect
failures (it starts at 1.0 and is updated to `min(10, backoff * 1.5)`). -/
def backoffSeq : Nat → ℚ
  | 0 => 1
  | n + 1 => min 10 (backoffSeq n * (3 / 2))

/-- Duration of the backoff sleep performed at the `n`-th consecutive connect
failure: `time.sleep(min(10.0, backoff_s))`. -/
def sleepDur (n : Nat) : ℚ := min 10 (backoffSeq n)

end SPS30Reader

open SPS30Reader

theorem connectPhase_of_device (st : State) (b : ℚ) (env : TickEnv)
    (hdev : st.device = true) : connectPhase st b env = (st, b, true, []) := by
  rw [connectPhase, if_neg (by simp [hdev])]

theorem tick_zeta (st : State) (b : ℚ) (env : TickEnv) :
    tick st b env =
      (if (connectPhase st b env).2.2.1 then
        tickBody (connectPhase st b env).1 (connectPhase st b env).2.1 env
          (connectPhase st b env).2.2.2
      else ((connectPhase st b env).1, (connectPhase st b env).2.1,
        (connectPhase st b env).2.2.2)) := rfl

theorem tick_of_device (st : State) (b : ℚ) (env : TickEnv)
    (hdev : st.device = true) : tick st b env = tickBody st b env [] := by
  rw [tick_zeta, connectPhase_of_device st b env hdev]
  rfl

theorem ensure_started_counter (st : State) (ok : Bool) :
    (ensure_started st ok).consecutive_read_failures =
      st.consecutive_read_failures := by
  rw [ensure_started]
  split
  · rfl
  · split
    · rfl
    · split <;> rfl

theorem tickBody_acts_prefix (st : State) (b : ℚ) (env : TickEnv)
    (acts : List Action) :
    ∃ extra, (tickBody st b env acts).2.2 = acts ++ extra := by
  rw [tickBody]
  by_cases hp : st.paused = true
  · rw [if_pos hp]
    exact ⟨_, rfl⟩
  · rw [if_neg hp]
    cases hr : read_measurement st env.now env.raw with
    | none =>
      by_cases hth :
          st.max_consecutive_failures ≤ st.consecutive_read_failures + 1
      · refine ⟨[Action.disconnectCall, Action.sleep 1], ?_⟩
        simp [hth]
      · refine ⟨[Action.ensureStartedCall, Action.sleep (1 / 2)], ?_⟩
        simp [hth]
    | some s => exact ⟨_, rfl⟩

/-- Concrete warm-up situation: device connected, warm-up deadline 100, clock
still at 50, and a raw read value that would parse fine. -/
def c2St : State :=
  { init (some "COM5") 5 with device := true, warmup_deadline := 100 }

def c2Env : TickEnv :=
  ⟨50, false, false, false, some (.pyList [.num 1, .num 2, .num 3, .num 4])⟩

/-- C2 (counterexample): on a tick strictly inside the warm-up window the
loop produces no sample, but the consecutive-failure counter IS incremented:
the `None` returned by `_read_measurement` during warm-up is counted by
`_run` like any other failed read (it goes from 0 to 1 here), refuting "does
not increment the consecutive-failure counter". -/
theorem c2_warmup_counterexample :
    c2St.device = true ∧ c2St.paused = false ∧
    c2St.warmup_deadline = 100 ∧ c2Env.now = 50 ∧
    c2St.consecutive_read_failures = 0 ∧
    (tick c2St 1 c2Env).2.2 = [Action.ensureStartedCall, Action.sleep (1 / 2)] ∧
    (tick c2St 1 c2Env).1.consecutive_read_failures = 1 :=
  ⟨rfl, rfl, rfl, rfl, rfl, rfl, rfl⟩

/-- C2 (amended): for every loop tick that occurs while the current time is
before the warm-up deadline, the tick produces no sample, but it is counted
as a failed read: the consecutive-failure counter is incremented (and the
usual threshold logic applies to the incremented value). -/
theorem c2_warmup_tick_counted_as_failure (st : State) (b : ℚ) (env : TickEnv)
    (hdev : st.device = true) (hp : st.paused = false)
    (hwd : st.warmup_deadline ≠ 0) (hnow : env.now < st.warmup_deadline) :
    (∀ s, Action.emitSample s ∉ (tick st b env).2.2) ∧
    (tick st b env).1.consecutive_read_failures =
      (if st.max_consecutive_failures ≤ st.consecutive_read_failures + 1 then 0
       else st.consecutive_read_failures + 1) := by
  have hread : read_measurement st env.now env.raw = none := by
    rw [read_measurement.eq_def, if_neg (by simp [hdev]), if_pos ⟨hwd, hnow⟩]
  rw [tick_of_device st b env hdev, tickBody, if_neg (by simp [hp]), hread]
  by_cases hth : st.max_consecutive_failures ≤ st.consecutive_read_failures + 1
  · refine ⟨?_, ?_⟩
    · intro s
      simp [hth]
    · simp [hth]
  · refine ⟨?_, ?_⟩
    · intro s
      simp [hth]
    · simp [hth, ensure_started_counter]

/-- Witness for C2's amended theorem at the concrete warm-up state. -/
theorem c2_warmup_tick_counted_as_failure_witness :
    c2St.device = true ∧ c2St.paused = false ∧
    c2St.warmup_deadline ≠ 0 ∧ c2Env.now < c2St.warmup_deadline ∧
    (tick c2St 1 c2Env).1.consecutive_read_failures =
      (if c2St.max_consecutive_failures ≤ c2St.consecutive_read_failures + 1
       then 0 else c2St.consecutive_read_failures + 1) :=
  ⟨rfl, rfl, by decide, by decide,
    (c2_warmup_tick_counted_as_failure c2St 1 c2Env rfl rfl (by decide)
      (by decide)).2⟩

theorem tick_connectCall_of_no_device (st : State) (b : ℚ) (env : TickEnv)
    (hdev : st.device = false) :
    Action.connectCall ∈ (tick st b env).2.2 := by
  cases hco : env.connectOk with
  | false =>
    have hcp : connectPhase st b env =
        ({ st with device := false, port := false, conn := false },
          min 10 (b * (3 / 2)), false,
          [Action.connectCall, Action.sleep (min 10 b)]) := by
      rw [connectPhase, if_pos hdev]
      simp [connect, hco]
    rw [tick_zeta, hcp]
    simp
  | true =>
    have hcp : (connectPhase st b env).2.2.1 = true ∧
        (connectPhase st b env).2.2.2 = [Action.connectCall] := by
      rw [connectPhase, if_pos hdev]
      simp [connect, hco]
    rw [tick_zeta, if_pos hcp.1, hcp.2]
    obtain ⟨extra, he⟩ := tickBody_acts_prefix (connectPhase st b env).1
      (connectPhase st b env).2.1 env [Action.connectCall]
    rw [he]
    simp

/-- C3: when the consecutive-failure counter stands at 49 (threshold 50) and
the read fails again with no intervening success, that tick performs exactly
the actions `[disconnect, sleep 1.0]` — the full `_disconnect()` path runs
exactly once for the crossing, followed by the brief pause — resets the
counter to 0 and `_measurement_started` to false, drops the device, and the
next iteration (whatever its environment) makes a `_connect` attempt. -/
theorem c3_threshold_forces_single_disconnect (st : State) (b : ℚ)
    (env : TickEnv) (hdev : st.device = true) (hp : st.paused = false)
    (hmax : st.max_consecutive_failures = 50)
    (hc : st.consecutive_read_failures = 49)
    (hread : read_measurement st env.now env.raw = none) :
    (tick st b env).2.2 = [Action.disconnectCall, Action.sleep 1] ∧
    (tick st b env).1.consecutive_read_failures = 0 ∧
    (tick st b env).1.measurement_started = false ∧
    (tick st b env).1.device = false ∧
    (∀ (b2 : ℚ) (env2 : TickEnv),
      Action.connectCall ∈ (tick (tick st b env).1 b2 env2).2.2) := by
  have hth : st.max_consecutive_failures ≤ st.consecutive_read_failures + 1 := by
    omega
  rw [tick_of_device st b env hdev, tickBody, if_neg (by simp [hp]), hread]
  refine ⟨by simp [hth], by simp [hth], by simp [hth],
    by simp [hth, disconnect], ?_⟩
  intro b2 env2
  apply tick_connectCall_of_no_device
  simp [hth, disconnect]

/-- Concrete threshold situation: 49 accumulated failures and a raw read that
raises. -/
def c3St : State :=
  { init none 5 with device := true, consecutive_read_failures := 49 }

def c3Env : TickEnv := ⟨1000, false, false, false, none⟩

/-- Witness for C3 at the concrete threshold state. -/
theorem c3_threshold_forces_single_disconnect_witness :
    c3St.device = true ∧ c3St.paused = false ∧
    c3St.max_consecutive_failures = 50 ∧
    c3St.consecutive_read_failures = 49 ∧
    read_measurement c3St c3Env.now c3Env.raw = none ∧
    (tick c3St 1 c3Env).2.2 = [Action.disconnectCall, Action.sleep 1] :=
  ⟨rfl, rfl, rfl, rfl, rfl,
    (c3_threshold_forces_single_disconnect c3St 1 c3Env rfl rfl rfl rfl rfl).1⟩

/-- Concrete connected state with measurement running, for the C4
counterexample. -/
def c4St : State :=
  { init none 5 with device := true, port := true, measurement_started := true }

/-- C4 (counterexample): `_disconnect()` does NOT reset
`_measurement_started`: starting from a connected state with measurement
running, the flag is still true after `_disconnect()`, refuting "after any
disconnect(), measurement_started is false".  (The callers that need the
flag cleared — `set_port` and the failure-threshold branch of `_run` — clear
it themselves, separately from `_disconnect()`.) -/
theorem c4_disconnect_counterexample :
    c4St.measurement_started = true ∧
    (disconnect c4St).device = false ∧
    (disconnect c4St).measurement_started = true :=
  ⟨rfl, rfl, rfl⟩

/-- C4 (amended): `_disconnect()` resets the device, connection and port
handles to the "no device" baseline and is idempotent (safe to call when
already disconnected); it leaves `_measurement_started` (and every other
field) unchanged — clearing that flag is done separately by the callers that
need it (`set_port`, the threshold branch of `_run`). -/
theorem c4_disconnect_idempotent_baseline (st : State) :
    (disconnect st).device = false ∧
    (disconnect st).conn = false ∧
    (disconnect st).port = false ∧
    disconnect (disconnect st) = disconnect st ∧
    (disconnect st).measurement_started = st.measurement_started ∧
    (disconnect st).consecutive_read_failures = st.consecutive_read_failures ∧
    (disconnect st).uart_port = st.uart_port ∧
    (disconnect st).last_sample_time = st.last_sample_time :=
  ⟨rfl, rfl, rfl, rfl, rfl, rfl, rfl, rfl⟩

/-- C6: `set_port(X)` retargets `uart_port`, tears down any current session
(device, connection and port handles dropped) and clears `_last_sample_time`
and `_measurement_started`; and when the new target is a concrete port `X`,
any subsequent `_connect` attempt uses `[X]` as its sole candidate list,
whatever ports were detected and whatever port was used before. -/
theorem c6_set_port_teardown_and_pin (st : State) (pn : Option String)
    (X : String) (detected : List String) :
    (set_port st pn).uart_port = pn ∧
    (set_port st pn).device = false ∧
    (set_port st pn).conn = false ∧
    (set_port st pn).port = false ∧
    (set_port st pn).last_sample_time = none ∧
    (set_port st pn).measurement_started = false ∧
    portsToTry (set_port st (some X)).uart_port detected = [X] :=
  ⟨rfl, rfl, rfl, rfl, rfl, rfl, rfl⟩

/-- C10: `start()` is idempotent while the loop thread is alive: if the
thread already exists, `start()` returns with the state unchanged (the stop
event is not cleared) and spawns no second thread. -/
theorem c10_start_idempotent_while_alive (st : State) (h : st.thread = true) :
    start st = (st, false) := by
  rw [start, if_pos h]

/-- Concrete running reader for the C10 witness. -/
def c10St : State := { init none 5 with thread := true }

/-- Witness for C10 at the concrete running state. -/
theorem c10_start_idempotent_while_alive_witness :
    c10St.thread = true ∧ start c10St = (c10St, false) :=
  ⟨rfl, c10_start_idempotent_while_alive c10St rfl⟩

theorem tick_connect_fail (st : State) (b : ℚ) (env : TickEnv)
    (hdev : st.device = false) (hco : env.connectOk = false) :
    tick st b env =
      ({ st with device := false, port := false, conn := false },
        min 10 (b * (3 / 2)),
        [Action.connectCall, Action.sleep (min 10 b)]) := by
  have hcp : connectPhase st b env =
      ({ st with device := false, port := false, conn := false },
        min 10 (b * (3 / 2)), false,
        [Action.connectCall, Action.sleep (min 10 b)]) := by
    rw [connectPhase, if_pos hdev]
    simp [connect, hco]
  rw [tick_zeta, hcp]
  rfl

theorem backoffSeq_pos : ∀ n, 0 < backoffSeq n
  | 0 => by norm_num [backoffSeq]
  | n + 1 => by
    rw [backoffSeq]
    exact lt_min (by norm_num) (by nlinarith [backoffSeq_pos n])

theorem backoffSeq_le_ten : ∀ n, backoffSeq n ≤ 10
  | 0 => by norm_num [backoffSeq]
  | n + 1 => by
    rw [backoffSeq]
    exact min_le_left _ _

theorem sleepDur_eq_backoffSeq (n : Nat) : sleepDur n = backoffSeq n :=
  min_eq_right (backoffSeq_le_ten n)

theorem runTicks_connect_failures (p : ℚ) (envs : Nat → TickEnv)
    (hfail : ∀ n, (envs n).connectOk = false) :
    ∀ n, runTicks (init none p) 1 envs n = (init none p, backoffSeq n) := by
  intro n
  induction n with
  | zero => rfl
  | succ n ih =>
    rw [runTicks]
    simp only [ih]
    rw [tick_connect_fail (init none p) (backoffSeq n) (envs n) rfl (hfail n)]
    rfl

/-- C5: under any run of consecutive `_connect` failures starting from the
initial reader state, the `n`-th tick performs exactly a connect attempt and
a backoff sleep of duration `sleepDur n`, where the sleep-duration sequence
starts at 1.0 s, is multiplied by 1.5 after each failure subject to the
10.0 s cap, is non-decreasing and never exceeds 10.0 s; and on a connect
success the backoff register resets to 1.0 s and the failure counter to 0. -/
theorem c5_backoff_monotone_capped (p : ℚ) (envs : Nat → TickEnv)
    (hfail : ∀ n, (envs n).connectOk = false) :
    (∀ n, (tick (runTicks (init none p) 1 envs n).1
        (runTicks (init none p) 1 envs n).2 (envs n)).2.2 =
      [Action.connectCall, Action.sleep (sleepDur n)]) ∧
    sleepDur 0 = 1 ∧
    (∀ n, sleepDur (n + 1) = min 10 (sleepDur n * (3 / 2))) ∧
    (∀ n, sleepDur n ≤ sleepDur (n + 1)) ∧
    (∀ n, sleepDur n ≤ 10) ∧
    (∀ (st : State) (b : ℚ) (env : TickEnv),
      st.device = false → env.connectOk = true →
        (connectPhase st b env).2.1 = 1 ∧
        (connectPhase st b env).1.consecutive_read_failures = 0) := by
  refine ⟨?_, rfl, ?_, ?_, ?_, ?_⟩
  · intro n
    rw [runTicks_connect_failures p envs hfail n]
    rw [tick_connect_fail (init none p) (backoffSeq n) (envs n) rfl (hfail n)]
    simp [sleepDur]
  · intro n
    rw [sleepDur_eq_backoffSeq, sleepDur_eq_backoffSeq, backoffSeq]
  · intro n
    rw [sleepDur_eq_backoffSeq, sleepDur_eq_backoffSeq, backoffSeq]
    exact le_min (backoffSeq_le_ten n) (by nlinarith [backoffSeq_pos n])
  · intro n
    rw [sleepDur_eq_backoffSeq]
    exact backoffSeq_le_ten n
  · intro st b env hdev hco
    have hcp : connectPhase st b env =
        ({ ensure_started
            { st with device := true, port := true, conn := env.shdlcVariant }
            env.startOk with
              warmup_deadline := env.now + 5, consecutive_read_failures := 0 },
          1, true, [Action.connectCall]) := by
      rw [connectPhase, if_pos hdev]
      simp [connect, hco]
    rw [hcp]
    exact ⟨rfl, rfl⟩

/-- Environment stream in which every connect attempt fails, for the C5
witness. -/
def c5Envs : Nat → TickEnv := fun _ => ⟨0, false, false, false, none⟩

/-- Witness for C5 under the always-failing environment stream. -/
theorem c5_backoff_monotone_capped_witness :
    (∀ n, (c5Envs n).connectOk = false) ∧ sleepDur 0 = 1 :=
  ⟨fun _ => rfl, (c5_backoff_monotone_capped 5 c5Envs (fun _ => rfl)).2.1⟩
